import Mathlib

/-!
Shallow embedding of `API_scripts/pcb_updater.py` (class `PcbUpdater`) from the
KiCAD-to-FreeCAD action plugin, together with proofs about its diff-application
behaviour.

Modelling conventions:
* Python dictionaries are association lists that preserve insertion order and
  have unique keys (`Entry`); `dict.update` replaces the value of an existing
  key in place or appends a new key at the end (`dictUpdate`).
* JSON-like property values are the inductive `Value` (ints, strings, lists).
* Python exceptions (AttributeError on `None`, KeyError, IndexError, TypeError,
  ValueError from `min([])`) are modelled with `Except String`; an error value
  means the exception propagates out of the updater routine.  Board mutations
  made by iterations that precede a raised exception inside the same entry are
  not tracked by the error value (the error aborts the whole routine).
* `logger.error` / `logger.exception` calls are modelled as a list of reported
  error messages (abbreviated text) returned alongside the result.
* The host (pcbnew) object model and the `API_scripts.utils` helpers are not
  part of the given sources; they are modelled from the spec where noted.
-/

namespace PcbUpdater

/-- A JSON-like property value as it appears in diff entries and in the shadow
data model: an integer, a string, or a (possibly nested) list. -/
inductive Value where
  | int (n : Int)
  | str (s : String)
  | list (xs : List Value)
deriving Repr

/-- A Python dictionary with string keys: an insertion-ordered association
list with unique keys. -/
abbrev Entry := List (String × Value)

/-- Python `d.update({k: v})`: replace the value of `k` in place if present
(keeping its position), otherwise append `(k, v)` at the end. -/
def dictUpdate : Entry → String → Value → Entry
  | [], k, v => [(k, v)]
  | (k', v') :: rest, k, v =>
      if k' = k then (k, v) :: rest else (k', v') :: dictUpdate rest k v

/-- Python `needle in hay` on strings: substring test. -/
def strIn (needle hay : String) : Bool :=
  hay.toList.tails.any (fun t => needle.toList.isPrefixOf t)

/-- Python equality test `v == s` between a dynamic value and a string literal:
true only when `v` is the string `s`. -/
def valueEqStr (v : Value) (s : String) : Bool :=
  match v with
  | .str t => t = s
  | _ => false

/-- `xs[i]` on a Python list: `IndexError` when out of range. -/
def pyIndex (xs : List Value) (i : Nat) : Except String Value :=
  match xs.get? i with
  | some v => .ok v
  | none => .error "IndexError: list index out of range"

/-- `v[i]` on a dynamic value: requires a list, then indexes it. -/
def pyIndexV (v : Value) (i : Nat) : Except String Value :=
  match v with
  | .list xs => pyIndex xs i
  | _ => .error "TypeError: object is not subscriptable"

/-- `for x in v`: requires a list value. -/
def pyIter (v : Value) : Except String (List Value) :=
  match v with
  | .list xs => .ok xs
  | _ => .error "TypeError: object is not iterable"

/-- A dynamic value used as an integer (`TypeError` otherwise). -/
def asInt (v : Value) : Except String Int :=
  match v with
  | .int n => .ok n
  | _ => .error "TypeError: an integer is required"

/-- A dynamic value used as a string (`TypeError` otherwise). -/
def asStr (v : Value) : Except String String :=
  match v with
  | .str s => .ok s
  | _ => .error "TypeError: a string is required"

/-- `d[k]` on a Python dictionary: `KeyError` when absent. -/
def getKey (d : Entry) (k : String) : Except String Value :=
  match d.lookup k with
  | some v => .ok v
  | none => .error "KeyError"

/-- Modelled from the spec: `API_scripts.utils.KiCADVector` (not under the
given sources) converts a 2-element `[x, y]` list of integers into a host
2D vector; it reads the first two elements of the list. -/
def KiCADVector (v : Value) : Except String (Int × Int) := do
  let x ← asInt (← pyIndexV v 0)
  let y ← asInt (← pyIndexV v 1)
  .ok (x, y)

/-- `(p[0], p[1])` of a point represented as a Python list, as read in the
rectangle branch of `updateDrawings`. -/
def pyPoint (p : Value) : Except String (Int × Int) := do
  let x ← asInt (← pyIndexV p 0)
  let y ← asInt (← pyIndexV p 1)
  .ok (x, y)

/-- Python `min(list)`: `ValueError` on an empty list. -/
def listMin : List Int → Except String Int
  | [] => .error "ValueError: min() arg is an empty sequence"
  | x :: xs => .ok (xs.foldl min x)

/-- Python `max(list)`: `ValueError` on an empty list. -/
def listMax : List Int → Except String Int
  | [] => .error "ValueError: max() arg is an empty sequence"
  | x :: xs => .ok (xs.foldl max x)

/-- The geometry of a board drawing object (`pcbnew.PCB_SHAPE`), restricted to
the shape kinds the updater handles.  A circle is stored the way the host
stores it: center plus one boundary point (the "end" point). -/
inductive BoardShape where
  | line (start stop : Int × Int)
  | rect (top bottom left right : Int)
  | poly (points : List (Int × Int))
  | arc (p1 md p2 : Int × Int)
  | circle (center endp : Int × Int)
deriving Repr, DecidableEq

/-- `drw.ShowShape()`: the host's display name of the shape kind, matched by
substring in the source's dispatch chain. -/
def showShape : BoardShape → String
  | .line _ _ => "Line"
  | .rect _ _ _ _ => "Rect"
  | .poly _ => "Poly"
  | .arc _ _ _ => "Arc"
  | .circle _ _ => "Circle"

/-- Nearest integer to the square root of a natural number (the host rounds
distances to integer board units). -/
def isqrtRound (n : Nat) : Nat :=
  let k := Nat.sqrt n
  if n ≤ k * k + k then k else k + 1

/-- Modelled from the spec: `drw.GetRadius()` under the boundary-point circle
encoding — the distance from the center to the boundary point, in integer
board units. -/
def BoardShape.getRadius : BoardShape → Int
  | .circle c e => Int.ofNat (isqrtRound (((e.1 - c.1) ^ 2 + (e.2 - c.2) ^ 2).toNat))
  | _ => 0

/-- `drw.GetEnd()` (used on circles: the boundary point; on lines: the end
point). -/
def BoardShape.getEnd : BoardShape → Int × Int
  | .line _ e => e
  | .circle _ e => e
  | _ => (0, 0)

/-- `drw.SetStart(p)` (used on lines). -/
def BoardShape.setStart (sh : BoardShape) (p : Int × Int) : BoardShape :=
  match sh with
  | .line _ e => .line p e
  | s => s

/-- `drw.SetEnd(p)` (used on lines and circles). -/
def BoardShape.setEnd (sh : BoardShape) (p : Int × Int) : BoardShape :=
  match sh with
  | .line s _ => .line s p
  | .circle c _ => .circle c p
  | s => s

/-- `drw.SetTop/SetBottom/SetLeft/SetRight` combined (used on rectangles). -/
def BoardShape.setRect (sh : BoardShape) (t b l r : Int) : BoardShape :=
  match sh with
  | .rect _ _ _ _ => .rect t b l r
  | s => s

/-- `drw.SetPolyPoints(points)`. -/
def BoardShape.setPolyPoints (sh : BoardShape) (ps : List (Int × Int)) : BoardShape :=
  match sh with
  | .poly _ => .poly ps
  | s => s

/-- `drw.SetArcGeometry(p1, md, p2)`. -/
def BoardShape.setArcGeometry (sh : BoardShape) (p1 md p2 : Int × Int) : BoardShape :=
  match sh with
  | .arc _ _ _ => .arc p1 md p2
  | s => s

/-- Modelled from the spec: `drw.SetPosition(p)` moves the shape so that its
position (the center, for a circle) becomes `p`, translating the boundary
point by the same delta — it "must not alter radius as a side effect"
(unlike the host's `SetCenter`, which the source avoids for that reason). -/
def BoardShape.setPosition (sh : BoardShape) (p : Int × Int) : BoardShape :=
  match sh with
  | .circle c e => .circle p (e.1 + (p.1 - c.1), e.2 + (p.2 - c.2))
  | s => s

/-- A board footprint (`pcbnew.FOOTPRINT`), restricted to the fields the
updater touches: reference text, position, rotation in degrees, layer index. -/
structure Footprint where
  ref : String
  pos : Int × Int
  rot : Int
  layer : Int
deriving Repr, DecidableEq

/-- A board drawing object: its geometry plus the stroke layer and width the
source sets on newly created shapes. -/
structure BoardObj where
  shape : BoardShape
  layer : Int
  width : Int
deriving Repr, DecidableEq

/-- The live board (`pcbnew.BOARD`): drawings and footprints keyed by their
host identifier (kiid), plus the host's supply of fresh identifiers. -/
structure Board where
  drawings : List (String × BoardObj)
  footprints : List (String × Footprint)
  nextUuid : Nat
deriving Repr, DecidableEq

/-- Modelled from the spec: the host-assigned identifier (`m_Uuid.AsString()`)
of the `n`-th object created on this board. -/
def uuidString (n : Nat) : String := "uuid-" ++ toString n

/-- Modelled from the spec: the host's edge-cuts layer constant
(`pcbnew.Edge_Cuts`). -/
def edgeCutsLayer : Int := 44

/-- Does this shadow entry carry the given kiid?  (Python compares the entry's
`"kiid"` value with the identifier string.) -/
def hasKIID (e : Entry) (kiid : String) : Bool :=
  match e.lookup "kiid" with
  | some (.str s) => s = kiid
  | _ => false

/-- Modelled from the spec: `API_scripts.utils.getDictEntryByKIID` (not under
the given sources) resolves a shadow-model entry by its `kiid`, returning
`none` when no entry matches. -/
def getDictEntryByKIID (lst : List Entry) (kiid : String) : Option Entry :=
  lst.find? (fun e => hasKIID e kiid)

/-- In-place mutation of the resolved shadow entry: replace the first entry
carrying `kiid` by the updated entry. -/
def setDictEntryByKIID : List Entry → String → Entry → List Entry
  | [], _, _ => []
  | e :: rest, kiid, e' =>
      if hasKIID e kiid then e' :: rest else e :: setDictEntryByKIID rest kiid e'

/-- Replace the value of the first matching key in an association list. -/
def replaceAssoc {α : Type} : List (String × α) → String → α → List (String × α)
  | [], _, _ => []
  | (k', a') :: rest, k, a =>
      if k' = k then (k, a) :: rest else (k', a') :: replaceAssoc rest k a

/-- Modelled from the spec: `API_scripts.utils.getDrawingByKIID` (not under
the given sources) resolves a live board drawing by its kiid. -/
def getDrawingByKIID (brd : Board) (kiid : String) : Option BoardObj :=
  brd.drawings.lookup kiid

/-- In-place mutation of a resolved board drawing. -/
def setDrawingByKIID (brd : Board) (kiid : String) (obj : BoardObj) : Board :=
  { brd with drawings := replaceAssoc brd.drawings kiid obj }

/-- Modelled from the spec: `API_scripts.utils.getFootprintByKIID` (not under
the given sources) resolves a live board footprint by its kiid. -/
def getFootprintByKIID (brd : Board) (kiid : String) : Option Footprint :=
  brd.footprints.lookup kiid

/-- In-place mutation of a resolved board footprint. -/
def setFootprintByKIID (brd : Board) (kiid : String) (fp : Footprint) : Board :=
  { brd with footprints := replaceAssoc brd.footprints kiid fp }

/-- The body of the per-property dispatch in `PcbUpdater.updateDrawings`:
`shape = drw.ShowShape()` followed by the substring-keyed `if`-chain that
mutates the drawing object. -/
def applyDrawingProperty (drw : BoardShape) (prop : String) (value : Value) :
    Except String BoardShape := do
  let shape := showShape drw
  if strIn "Line" shape then do
    -- value is a single point; converted before the start/end dispatch
    let pointNew ← KiCADVector value
    if prop = "start" then .ok (drw.setStart pointNew)
    else if prop = "end" then .ok (drw.setEnd pointNew)
    else .ok drw
  else if strIn "Rect" shape then do
    -- gather all x and all y coordinates (p[0], p[1] of each point)
    let vs ← pyIter value
    let pts ← vs.mapM pyPoint
    let rectTop ← listMin (pts.map Prod.snd)
    let rectBottom ← listMax (pts.map Prod.snd)
    let rectLeft ← listMin (pts.map Prod.fst)
    let rectRight ← listMax (pts.map Prod.fst)
    .ok (drw.setRect rectTop rectBottom rectLeft rectRight)
  else if strIn "Poly" shape then do
    let vs ← pyIter value
    let points ← vs.mapM KiCADVector
    .ok (drw.setPolyPoints points)
  else if strIn "Arc" shape then do
    let p1 ← KiCADVector (← pyIndexV value 0)
    let md ← KiCADVector (← pyIndexV value 1)
    let p2 ← KiCADVector (← pyIndexV value 2)
    .ok (drw.setArcGeometry p1 md p2)
  else if strIn "Circle" shape then
    if prop = "center" then do
      let centerNew ← KiCADVector value
      .ok (drw.setPosition centerNew)
    else if prop = "radius" then do
      let newRadius ← asInt value
      let oldRadius := drw.getRadius
      let radiusDiff := oldRadius - newRadius
      let e := drw.getEnd
      -- end_point[1] -= radius_diff
      let endPoint : Int × Int := (e.1, e.2 - radiusDiff)
      .ok (drw.setEnd endPoint)
    else .ok drw
  else .ok drw

/-- The property loop of `updateDrawings` for one changed entry.  `drw` and
`d` are the results of the two kiid lookups; the source checks neither for
`None` before use, so a missing drawing raises `AttributeError` here. -/
def drawingPropLoop :
    List (String × Value) → Option BoardObj → Option Entry →
    Except String (Option BoardObj × Option Entry)
  | [], drw, d => .ok (drw, d)
  | (prop, value) :: rest, drw, d => do
      match drw with
      | none => .error "AttributeError: NoneType object has no attribute ShowShape"
      | some obj => do
          let shape' ← applyDrawingProperty obj.shape prop value
          match d with
          | none => .error "AttributeError: NoneType object has no attribute update"
          | some dd =>
              drawingPropLoop rest (some { obj with shape := shape' })
                (some (dictUpdate dd prop value))

/-- One iteration of the `for entry in changed` loop of
`PcbUpdater.updateDrawings`: unpack the single-key mapping, resolve the shadow
entry and the board drawing (logging, but not skipping, on failure), run the
property loop, then recompute and store the entry's hash. -/
def updateOneDrawing (digest : Entry → String) (brd : Board) (pcb : List Entry)
    (entry : List (String × List (String × Value))) :
    Except String (Board × List Entry × List String) := do
  match entry with
  | [] => .error "IndexError: list index out of range"
  | (kiid, changes) :: _ =>
      let drawingOpt := getDictEntryByKIID pcb kiid
      let logsA := if drawingOpt.isNone then
          ["Cannot find drawing in data model by KIID: " ++ kiid] else []
      let drwOpt := getDrawingByKIID brd kiid
      let logs := logsA ++ (if drwOpt.isNone then
          ["Cannot find drawing is pcb by KIID: " ++ kiid] else [])
      let (drw', d') ← drawingPropLoop changes drwOpt drawingOpt
      match d' with
      | none => .error "AttributeError: NoneType object has no attribute update"
      | some dd =>
          let h := digest dd
          let dd' := dictUpdate dd "hash" (.str h)
          let brd' := match drw' with
            | some obj => setDrawingByKIID brd kiid obj
            | none => brd
          .ok (brd', setDictEntryByKIID pcb kiid dd', logs)

/-- `PcbUpdater.updateDrawings`: apply every changed drawing entry in order.
An uncaught Python exception aborts the whole routine. -/
def updateDrawings (digest : Entry → String) (brd : Board) (pcb : List Entry) :
    List (List (String × List (String × Value))) →
    Except String (Board × List Entry × List String)
  | [] => .ok (brd, pcb, [])
  | entry :: rest => do
      let (brd', pcb', lg) ← updateOneDrawing digest brd pcb entry
      let (brd'', pcb'', lg') ← updateDrawings digest brd' pcb' rest
      .ok (brd'', pcb'', lg ++ lg')

/-- Python truthiness of the `layer` variable in `updateFootprints`:
`None` and `0` are both falsy. -/
def pyTruthy : Option Int → Bool
  | none => false
  | some n => n ≠ 0

/-- The body of the per-property dispatch in `PcbUpdater.updateFootprints`:
mutate the footprint according to the property name, returning the reported
errors (the invalid-layer case). -/
def applyFootprintProperty (fp : Footprint) (prop : String) (value : Value) :
    Except String (Footprint × List String) :=
  if prop = "ref" then do
    let s ← asStr value
    .ok ({ fp with ref := s }, [])
  else if prop = "pos" then do
    let p ← KiCADVector value
    .ok ({ fp with pos := p }, [])
  else if prop = "rot" then do
    let n ← asInt value
    .ok ({ fp with rot := n }, [])
  else if prop = "layer" then
    let layer : Option Int :=
      if valueEqStr value "Top" then some 0
      else if valueEqStr value "Bot" then some 31
      else none
    -- Python: `if layer:` — None and 0 are both falsy
    if pyTruthy layer then
      .ok ({ fp with layer := layer.getD 0 }, [])
    else
      .ok (fp, ["Invalid layer"])
  else if prop = "3d_models" then
    .ok (fp, [])
  else
    .ok (fp, [])

/-- The property loop of `updateFootprints` for one changed entry: apply each
property to the live footprint, then mirror it into the shadow entry
(unconditionally, as the source does). -/
def footprintPropLoop :
    List (String × Value) → Footprint → Entry →
    Except String (Footprint × Entry × List String)
  | [], fp, d => .ok (fp, d, [])
  | (prop, value) :: rest, fp, d => do
      let (fp', lg) ← applyFootprintProperty fp prop value
      let (fp'', d', lg') ← footprintPropLoop rest fp' (dictUpdate d prop value)
      .ok (fp'', d', lg ++ lg')

/-- One iteration of the `for entry in changed` loop of
`PcbUpdater.updateFootprints`: unpack the single-key mapping, resolve the
shadow entry and the board footprint (`continue` on failure), run the property
loop, then recompute and store the entry's hash. -/
def updateOneFootprint (digest : Entry → String) (brd : Board) (pcb : List Entry)
    (entry : List (String × List (String × Value))) :
    Except String (Board × List Entry × List String) := do
  match entry with
  | [] => .error "IndexError: list index out of range"
  | (kiid, changes) :: _ =>
      match getDictEntryByKIID pcb kiid with
      | none => .ok (brd, pcb, ["Cannot find footprint " ++ kiid ++ " in data model."])
      | some fpd =>
          match getFootprintByKIID brd kiid with
          | none => .ok (brd, pcb, ["Cannot find footprint " ++ kiid ++ " in data PCB."])
          | some fp => do
              let (fp', fpd', logs) ← footprintPropLoop changes fp fpd
              let h := digest fpd'
              let fpd'' := dictUpdate fpd' "hash" (.str h)
              .ok (setFootprintByKIID brd kiid fp', setDictEntryByKIID pcb kiid fpd'', logs)

/-- The `changed` loop of `updateFootprints`. -/
def updateFootprintsChanged (digest : Entry → String) (brd : Board) (pcb : List Entry) :
    List (List (String × List (String × Value))) →
    Except String (Board × List Entry × List String)
  | [] => .ok (brd, pcb, [])
  | entry :: rest => do
      let (brd', pcb', lg) ← updateOneFootprint digest brd pcb entry
      let (brd'', pcb'', lg') ← updateFootprintsChanged digest brd' pcb' rest
      .ok (brd'', pcb'', lg ++ lg')

/-- `PcbUpdater.updateFootprints`: `changed = footprints.get("changed")`,
then `if changed:` guards the loop (`None` or an empty list skip it). -/
def updateFootprints (digest : Entry → String) (brd : Board) (pcb : List Entry)
    (changed : Option (List (List (String × List (String × Value))))) :
    Except String (Board × List Entry × List String) :=
  match changed with
  | none => .ok (brd, pcb, [])
  | some ch => updateFootprintsChanged digest brd pcb ch

/-- `brd.Add(new_shape)` followed by `new_shape.m_Uuid.AsString()`: insert the
object and read back its host-assigned identifier. -/
def addToBoard (brd : Board) (obj : BoardObj) : String × Board :=
  let kiid := uuidString brd.nextUuid
  (kiid,
   { brd with drawings := brd.drawings ++ [(kiid, obj)], nextUuid := brd.nextUuid + 1 })

/-- `PcbUpdater.addDrawing`: construct a new board shape from the descriptor
(edge-cuts layer, fixed stroke width), insert it into the board and return the
host-assigned identifier; an unrecognized shape kind is reported and returns
the empty identifier with the board unchanged. -/
def addDrawing (brd : Board) (drawing : Entry) :
    Except String (String × Board × List String) := do
  let baseLayer := edgeCutsLayer
  let baseWidth : Int := 100000
  let s ← asStr (← getKey drawing "shape")
  if strIn "Line" s then do
    let start ← KiCADVector (← getKey drawing "start")
    let stop ← KiCADVector (← getKey drawing "end")
    let (kiid, brd') := addToBoard brd ⟨.line start stop, baseLayer, baseWidth⟩
    .ok (kiid, brd', [])
  else if strIn "Circle" s then do
    let center ← getKey drawing "center"
    let radius ← asInt (← getKey drawing "radius")
    -- end_point = [center[0], center[1] + radius]
    let cx ← asInt (← pyIndexV center 0)
    let cy ← asInt (← pyIndexV center 1)
    let c ← KiCADVector center
    let (kiid, brd') := addToBoard brd ⟨.circle c (cx, cy + radius), baseLayer, baseWidth⟩
    .ok (kiid, brd', [])
  else if strIn "Arc" s then do
    let pts ← getKey drawing "points"
    let p1 ← KiCADVector (← pyIndexV pts 0)
    let md ← KiCADVector (← pyIndexV pts 1)
    let p2 ← KiCADVector (← pyIndexV pts 2)
    let (kiid, brd') := addToBoard brd ⟨.arc p1 md p2, baseLayer, baseWidth⟩
    .ok (kiid, brd', [])
  else
    .ok ("", brd, ["Invalid new drawing shape"])

/-- `PcbUpdater.addDrawings`: add each descriptor in turn; the returned
identifier is discarded by this routine. -/
def addDrawings (brd : Board) :
    List Entry → Except String (Board × List String)
  | [] => .ok (brd, [])
  | d :: rest => do
      let (_, brd', lg) ← addDrawing brd d
      let (brd'', lg') ← addDrawings brd' rest
      .ok (brd'', lg ++ lg')

/-- Modelled from the spec: the caller of `addDrawing` that attaches the
returned host identifier to the descriptor and inserts it into
`shadow.drawings` is not under the given sources (`addDrawings` discards the
identifier; `addDrawing`'s docstring says the caller updates the data model).
Per the spec, a failed construction (empty identifier) leaves the shadow model
untouched. -/
def applyAddedDrawing (brd : Board) (shadowDrawings : List Entry) (desc : Entry) :
    Except String (Board × List Entry × List String) := do
  let (kiid, brd', logs) ← addDrawing brd desc
  if kiid = "" then
    .ok (brd', shadowDrawings, logs)
  else
    .ok (brd', shadowDrawings ++ [dictUpdate desc "kiid" (.str kiid)], logs)

/-- The `Value` encoding of a 2D point, as diffs carry it: a `[x, y]` list. -/
def ptVal (p : Int × Int) : Value := .list [.int p.1, .int p.2]

/-- The `Value` encoding of a list of 2D points. -/
def ptsVal (l : List (Int × Int)) : Value := .list (l.map ptVal)

/-- The board after a new drawing object was added: the object is appended
under the freshly assigned identifier (this is `(addToBoard brd obj).2`
spelled out). -/
def boardWithAdded (brd : Board) (kiid : String) (obj : BoardObj) : Board :=
  { brd with drawings := brd.drawings ++ [(kiid, obj)], nextUuid := brd.nextUuid + 1 }

/-- An `Added` drawing descriptor of a recognized shape kind whose geometry
fields are present and well-typed: a Line with start/end points, a Circle
with center and integer radius, or an Arc with at least three points. -/
def wellFormedDesc (d : Entry) : Prop :=
  (d.lookup "shape" = some (.str "Line")
     ∧ (∃ p, d.lookup "start" = some (ptVal p))
     ∧ (∃ q, d.lookup "end" = some (ptVal q)))
  ∨ (d.lookup "shape" = some (.str "Circle")
     ∧ (∃ p, d.lookup "center" = some (ptVal p))
     ∧ (∃ n, d.lookup "radius" = some (.int n)))
  ∨ (d.lookup "shape" = some (.str "Arc")
     ∧ (∃ p1 p2 p3 rest, d.lookup "points"
          = some (.list (ptVal p1 :: ptVal p2 :: ptVal p3 :: rest))))

/-! ### General lemmas about the embedding -/

theorem pyPoint_ptVal (p : Int × Int) : pyPoint (ptVal p) = .ok p := rfl

theorem mapM_pyPoint_ptVal (l : List (Int × Int)) :
    (l.map ptVal).mapM pyPoint = Except.ok l := by
  induction l with
  | nil => rfl
  | cons a t ih =>
      rw [List.map_cons, List.mapM_cons, pyPoint_ptVal, ih]
      rfl

theorem dictUpdate_lookup (d : Entry) (k : String) (v : Value) :
    (dictUpdate d k v).lookup k = some v := by
  induction d with
  | nil => simp [dictUpdate, List.lookup]
  | cons a rest ih =>
      obtain ⟨k', v'⟩ := a
      by_cases h : k' = k
      · subst h
        simp [dictUpdate, List.lookup]
      · have hb : (k == k') = false :=
          beq_eq_false_iff_ne.mpr (fun hh => h hh.symm)
        simp [dictUpdate, h, List.lookup, hb, ih]

theorem uuidString_ne_empty (n : Nat) : uuidString n ≠ "" := by
  intro h
  have hlen : (uuidString n).length = 0 := by rw [h]; rfl
  rw [uuidString, String.length_append] at hlen
  have : ("uuid-" : String).length = 5 := rfl
  omega

theorem isqrtRound_sq (k : Nat) : isqrtRound (k * k) = k := by
  unfold isqrtRound
  rw [Nat.sqrt_eq k]
  simp

/-- A circle whose boundary point lies vertically below the center at signed
offset `R ≥ 0` has radius exactly `R`. -/
theorem getRadius_vertical (c : Int × Int) (R : Int) (hR : 0 ≤ R) :
    (BoardShape.circle c (c.1, c.2 + R)).getRadius = R := by
  obtain ⟨k, rfl⟩ := Int.eq_ofNat_of_zero_le hR
  simp only [BoardShape.getRadius]
  have h1 : ((c.1, c.2 + (k : Int)).1 - c.1) = 0 := by simp
  have h2 : ((c.1, c.2 + (k : Int)).2 - c.2) = (k : Int) := by simp
  rw [h1, h2]
  norm_num
  have h3 : ((k : Int) ^ 2).toNat = k * k := by
    rw [show ((k : Int) ^ 2) = ((k * k : Nat) : Int) by push_cast; ring]
    exact Int.toNat_natCast _
  rw [h3, isqrtRound_sq]

theorem foldl_min_le_init (l : List Int) : ∀ x : Int, l.foldl min x ≤ x := by
  induction l with
  | nil => intro x; simp
  | cons a t ih =>
      intro x
      calc List.foldl min (min x a) t ≤ min x a := ih (min x a)
        _ ≤ x := min_le_left x a

theorem init_le_foldl_max (l : List Int) : ∀ x : Int, x ≤ l.foldl max x := by
  induction l with
  | nil => intro x; simp
  | cons a t ih =>
      intro x
      calc x ≤ max x a := le_max_left x a
        _ ≤ List.foldl max (max x a) t := ih (max x a)

theorem foldl_min_le_foldl_max (l : List Int) (x : Int) :
    l.foldl min x ≤ l.foldl max x :=
  le_trans (foldl_min_le_init l x) (init_le_foldl_max l x)

/-- Evaluation of the rectangle branch of the property dispatch on a
non-empty list of corner points. -/
theorem applyDrawingProperty_rect (t b l r : Int) (prop : String)
    (p : Int × Int) (ps : List (Int × Int)) :
    applyDrawingProperty (.rect t b l r) prop (ptsVal (p :: ps))
      = .ok (.rect ((ps.map Prod.snd).foldl min p.2) ((ps.map Prod.snd).foldl max p.2)
          ((ps.map Prod.fst).foldl min p.1) ((ps.map Prod.fst).foldl max p.1)) := by
  simp only [applyDrawingProperty, showShape, ptsVal, pyIter]
  rw [show strIn "Line" "Rect" = false from rfl, show strIn "Rect" "Rect" = true from rfl]
  simp only [Bool.false_eq_true, if_false, if_true, Bind.bind, Except.bind]
  rw [mapM_pyPoint_ptVal]
  rfl

/-- Evaluation of the circle branch on the `radius` property: the source
reads the current radius and shifts the boundary point's y-coordinate by
`old_radius - new_radius`. -/
theorem applyDrawingProperty_circle_radius (c e : Int × Int) (r : Int) :
    applyDrawingProperty (.circle c e) "radius" (.int r)
      = .ok (.circle c (e.1, e.2 - ((BoardShape.circle c e).getRadius - r))) := rfl

/-- Success of the drawing-entry body implies the stored shadow entry is the
property-updated entry with its hash recomputed over that entry. -/
theorem updateOneDrawing_hash (digest : Entry → String) (brd : Board)
    (pcb : List Entry) (kiid : String) (changes : List (String × Value))
    (rest : List (String × List (String × Value)))
    (brd' : Board) (pcb' : List Entry) (lg : List String)
    (h : updateOneDrawing digest brd pcb ((kiid, changes) :: rest) = .ok (brd', pcb', lg)) :
    ∃ dd : Entry,
      pcb' = setDictEntryByKIID pcb kiid (dictUpdate dd "hash" (.str (digest dd)))
      ∧ (dictUpdate dd "hash" (.str (digest dd))).lookup "hash"
          = some (.str (digest dd)) := by
  simp only [updateOneDrawing, Bind.bind, Except.bind] at h
  cases hLoop : drawingPropLoop changes (getDrawingByKIID brd kiid)
      (getDictEntryByKIID pcb kiid) with
  | error e =>
      rw [hLoop] at h
      exact absurd h (by simp)
  | ok pr =>
      obtain ⟨drw', d'⟩ := pr
      rw [hLoop] at h
      cases d' with
      | none => simp at h
      | some dd =>
          simp only [Except.ok.injEq, Prod.mk.injEq] at h
          obtain ⟨hb, hp, hl⟩ := h
          exact ⟨dd, hp.symm, dictUpdate_lookup _ _ _⟩

/-- Success of the footprint-entry body on a resolvable entry implies the
stored shadow entry is the property-updated entry with its hash recomputed
over that entry. -/
theorem updateOneFootprint_hash (digest : Entry → String) (brd : Board)
    (pcb : List Entry) (kiid : String) (changes : List (String × Value))
    (rest : List (String × List (String × Value)))
    (brd' : Board) (pcb' : List Entry) (lg : List String)
    (fpd : Entry) (fp : Footprint)
    (hd : getDictEntryByKIID pcb kiid = some fpd)
    (hf : getFootprintByKIID brd kiid = some fp)
    (h : updateOneFootprint digest brd pcb ((kiid, changes) :: rest) = .ok (brd', pcb', lg)) :
    ∃ dd : Entry,
      pcb' = setDictEntryByKIID pcb kiid (dictUpdate dd "hash" (.str (digest dd)))
      ∧ (dictUpdate dd "hash" (.str (digest dd))).lookup "hash"
          = some (.str (digest dd)) := by
  simp only [updateOneFootprint, hd, hf, Bind.bind, Except.bind] at h
  cases hLoop : footprintPropLoop changes fp fpd with
  | error e =>
      rw [hLoop] at h
      exact absurd h (by simp)
  | ok pr =>
      obtain ⟨fp', fpd', logs⟩ := pr
      rw [hLoop] at h
      simp only [Except.ok.injEq, Prod.mk.injEq] at h
      obtain ⟨hb, hp, hl⟩ := h
      exact ⟨fpd', hp.symm, dictUpdate_lookup _ _ _⟩

/-! ### Claims -/

/-- C1: the claim says a `Changed` entry whose kiid resolves neither in the
board nor in the shadow model is reported, skipped, and the other entries of
the diff are still applied.  `updateFootprints` behaves that way (second
conjunct), but `updateDrawings` lacks the `continue`: it logs the lookup
errors and then dereferences `None`, so the whole diff aborts with an
`AttributeError` and the second (resolvable) entry is never applied (first
conjunct). -/
theorem C1_unknown_drawing_kiid_aborts_diff :
    updateDrawings (fun _ => "D")
        ⟨[("k1", ⟨.line (0, 0) (10, 10), 44, 100000⟩)], [], 0⟩
        [[("kiid", .str "k1"), ("start", ptVal (0, 0)), ("hash", .str "h0")]]
        [[("missing", [("start", ptVal (1, 2))])], [("k1", [("start", ptVal (5, 6))])]]
      = .error "AttributeError: NoneType object has no attribute ShowShape"
    ∧ updateFootprints (fun _ => "D")
        ⟨[], [("f1", ⟨"R1", (0, 0), 0, 0⟩)], 0⟩
        [[("kiid", .str "f1"), ("pos", ptVal (0, 0)), ("hash", .str "h0")]]
        (some [[("missing", [("pos", ptVal (1, 2))])], [("f1", [("pos", ptVal (5, 6))])]])
      = .ok (⟨[], [("f1", ⟨"R1", (5, 6), 0, 0⟩)], 0⟩,
             [[("kiid", .str "f1"), ("pos", ptVal (5, 6)), ("hash", .str "D")]],
             ["Cannot find footprint missing in data model."]) :=
  ⟨rfl, rfl⟩

/-- C2: for every `Added` drawing descriptor of a recognized shape kind
(Line, Circle or Arc, with well-typed geometry fields), `addDrawing` inserts
the constructed object into the board under the host-assigned identifier and
returns that identifier, and the (spec-modelled) caller inserts the
descriptor with the identifier attached into `shadow.drawings`; the new
shadow entry's `kiid` equals the board object's identifier. -/
theorem C2_added_drawing_board_and_shadow_sync (brd : Board) (shadow : List Entry)
    (desc : Entry) (h : wellFormedDesc desc) :
    ∃ (kiid : String) (obj : BoardObj),
      addDrawing brd desc = .ok (kiid, boardWithAdded brd kiid obj, [])
      ∧ kiid ≠ ""
      ∧ applyAddedDrawing brd shadow desc
          = .ok (boardWithAdded brd kiid obj,
                 shadow ++ [dictUpdate desc "kiid" (.str kiid)], [])
      ∧ (dictUpdate desc "kiid" (.str kiid)).lookup "kiid" = some (.str kiid) := by
  rcases h with ⟨hs, ⟨p, hp⟩, ⟨q, hq⟩⟩ | ⟨hs, ⟨p, hp⟩, ⟨n, hn⟩⟩ | ⟨hs, ⟨p1, p2, p3, rest, hp⟩⟩
  · have hadd : addDrawing brd desc
        = .ok (uuidString brd.nextUuid,
               boardWithAdded brd (uuidString brd.nextUuid)
                 ⟨.line p q, edgeCutsLayer, 100000⟩, []) := by
      simp only [addDrawing, getKey, hs, hp, hq, asStr, Bind.bind, Except.bind]
      rw [show strIn "Line" "Line" = true from rfl]
      simp only [if_true]
      rw [show KiCADVector (ptVal p) = Except.ok p from rfl,
          show KiCADVector (ptVal q) = Except.ok q from rfl]
      rfl
    refine ⟨_, _, hadd, uuidString_ne_empty _, ?_, dictUpdate_lookup _ _ _⟩
    simp only [applyAddedDrawing, hadd, Bind.bind, Except.bind]
    rw [if_neg (uuidString_ne_empty brd.nextUuid)]
  · have hadd : addDrawing brd desc
        = .ok (uuidString brd.nextUuid,
               boardWithAdded brd (uuidString brd.nextUuid)
                 ⟨.circle p (p.1, p.2 + n), edgeCutsLayer, 100000⟩, []) := by
      simp only [addDrawing, getKey, hs, hp, hn, asStr, asInt, Bind.bind, Except.bind]
      rw [show strIn "Line" "Circle" = false from rfl,
          show strIn "Circle" "Circle" = true from rfl]
      simp only [Bool.false_eq_true, if_false, if_true]
      rw [show pyIndexV (ptVal p) 0 = Except.ok (.int p.1) from rfl,
          show pyIndexV (ptVal p) 1 = Except.ok (.int p.2) from rfl,
          show KiCADVector (ptVal p) = Except.ok p from rfl]
      rfl
    refine ⟨_, _, hadd, uuidString_ne_empty _, ?_, dictUpdate_lookup _ _ _⟩
    simp only [applyAddedDrawing, hadd, Bind.bind, Except.bind]
    rw [if_neg (uuidString_ne_empty brd.nextUuid)]
  · have hadd : addDrawing brd desc
        = .ok (uuidString brd.nextUuid,
               boardWithAdded brd (uuidString brd.nextUuid)
                 ⟨.arc p1 p2 p3, edgeCutsLayer, 100000⟩, []) := by
      simp only [addDrawing, getKey, hs, hp, asStr, Bind.bind, Except.bind]
      rw [show strIn "Line" "Arc" = false from rfl,
          show strIn "Circle" "Arc" = false from rfl,
          show strIn "Arc" "Arc" = true from rfl]
      simp only [Bool.false_eq_true, if_false, if_true]
      rfl
    refine ⟨_, _, hadd, uuidString_ne_empty _, ?_, dictUpdate_lookup _ _ _⟩
    simp only [applyAddedDrawing, hadd, Bind.bind, Except.bind]
    rw [if_neg (uuidString_ne_empty brd.nextUuid)]

/-- C2 witness: a concrete Line descriptor added to an empty board. -/
theorem C2_added_drawing_board_and_shadow_sync_witness :
    wellFormedDesc [("shape", Value.str "Line"), ("start", ptVal (1, 2)), ("end", ptVal (3, 4))]
    ∧ ∃ (kiid : String) (obj : BoardObj),
        addDrawing ⟨[], [], 0⟩
            [("shape", .str "Line"), ("start", ptVal (1, 2)), ("end", ptVal (3, 4))]
          = .ok (kiid, boardWithAdded ⟨[], [], 0⟩ kiid obj, [])
        ∧ kiid ≠ ""
        ∧ applyAddedDrawing ⟨[], [], 0⟩ []
              [("shape", .str "Line"), ("start", ptVal (1, 2)), ("end", ptVal (3, 4))]
            = .ok (boardWithAdded ⟨[], [], 0⟩ kiid obj,
                   [] ++ [dictUpdate
                     [("shape", .str "Line"), ("start", ptVal (1, 2)), ("end", ptVal (3, 4))]
                     "kiid" (.str kiid)], [])
        ∧ (dictUpdate
              [("shape", .str "Line"), ("start", ptVal (1, 2)), ("end", ptVal (3, 4))]
              "kiid" (.str kiid)).lookup "kiid" = some (.str kiid) :=
  have hwf : wellFormedDesc
      [("shape", Value.str "Line"), ("start", ptVal (1, 2)), ("end", ptVal (3, 4))] :=
    Or.inl ⟨rfl, ⟨(1, 2), rfl⟩, ⟨(3, 4), rfl⟩⟩
  ⟨hwf, C2_added_drawing_board_and_shadow_sync ⟨[], [], 0⟩ [] _ hwf⟩

/-- C3: the claim says `layer` value `"Top"` sets the board footprint to the
front-layer index and mirrors the value into the shadow entry, and that an
invalid value leaves the shadow entry unchanged.  In the source, `"Top"` maps
to the front-layer index `0`, which the falsy-zero check `if layer:` treats
as invalid: the board footprint is left on its old layer (31 here) and an
invalid-layer error is reported, yet the shadow entry's `layer` value is
still overwritten with `"Top"` because the mirroring is unconditional (first
conjunct).  `"Bot"` (index 31, truthy) is applied as claimed (second
conjunct). -/
theorem C3_layer_top_falsy_zero :
    updateFootprints (fun _ => "D")
        ⟨[], [("f1", ⟨"R1", (0, 0), 0, 31⟩)], 0⟩
        [[("kiid", .str "f1"), ("layer", .str "Bot"), ("hash", .str "h0")]]
        (some [[("f1", [("layer", .str "Top")])]])
      = .ok (⟨[], [("f1", ⟨"R1", (0, 0), 0, 31⟩)], 0⟩,
             [[("kiid", .str "f1"), ("layer", .str "Top"), ("hash", .str "D")]],
             ["Invalid layer"])
    ∧ updateFootprints (fun _ => "D")
        ⟨[], [("f2", ⟨"R2", (0, 0), 0, 0⟩)], 0⟩
        [[("kiid", .str "f2"), ("layer", .str "Top"), ("hash", .str "h0")]]
        (some [[("f2", [("layer", .str "Bot")])]])
      = .ok (⟨[], [("f2", ⟨"R2", (0, 0), 0, 31⟩)], 0⟩,
             [[("kiid", .str "f2"), ("layer", .str "Bot"), ("hash", .str "D")]],
             []) :=
  ⟨rfl, rfl⟩

/-- The example circle of the spec: radius of center `(1000000, 1000000)`
with boundary point `(1000000, 1500000)` is `500000`. -/
theorem getRadius_example_500000 :
    (BoardShape.circle (1000000, 1000000) (1000000, 1500000)).getRadius = 500000 := by
  have h := getRadius_vertical (1000000, 1000000) 500000 (by norm_num)
  norm_num at h
  exact h

/-- The example circle updated to radius `300000` gets boundary point
`(1000000, 1300000)`. -/
theorem circle_radius_example :
    applyDrawingProperty (BoardShape.circle (1000000, 1000000) (1000000, 1500000))
        "radius" (.int 300000)
      = .ok (.circle (1000000, 1000000) (1000000, 1300000)) := by
  rw [applyDrawingProperty_circle_radius, getRadius_example_500000]
  norm_num

/-- C4: a `Changed` Circle `radius` update reads the current radius, computes
`diff = old_radius - new_radius` and replaces the boundary point by the
current boundary point with `diff` subtracted from its y-coordinate, leaving
the center unchanged; in particular `old_radius = 500000` (center
`(1000000, 1000000)`, boundary `(1000000, 1500000)`) updated to radius
`300000` yields boundary `(1000000, 1300000)`. -/
theorem C4_circle_radius_update :
    (∀ (c e : Int × Int) (r : Int),
        applyDrawingProperty (.circle c e) "radius" (.int r)
          = .ok (.circle c (e.1, e.2 - ((BoardShape.circle c e).getRadius - r))))
    ∧ updateDrawings (fun _ => "D")
        ⟨[("c1", ⟨.circle (1000000, 1000000) (1000000, 1500000), 44, 100000⟩)], [], 0⟩
        [[("kiid", .str "c1"), ("radius", .int 500000), ("hash", .str "h0")]]
        [[("c1", [("radius", .int 300000)])]]
      = .ok (⟨[("c1", ⟨.circle (1000000, 1000000) (1000000, 1300000), 44, 100000⟩)], [], 0⟩,
             [[("kiid", .str "c1"), ("radius", .int 300000), ("hash", .str "D")]],
             []) := by
  refine ⟨fun c e r => applyDrawingProperty_circle_radius c e r, ?_⟩
  simp only [updateDrawings, updateOneDrawing, Bind.bind, Except.bind, drawingPropLoop,
    getDrawingByKIID, getDictEntryByKIID, List.lookup, List.find?, hasKIID]
  norm_num [circle_radius_example]
  exact ⟨rfl, rfl⟩

/-- C5: after `updateDrawings` (first conjunct) or `updateFootprints` (second
conjunct) finishes processing a `Changed` entry, the stored shadow entry is
the property-updated entry `dd` with its `hash` field set to `digest dd` —
the digest recomputed over the entry's contents at that moment, never a stale
value. -/
theorem C5_hash_recomputed_after_entry :
    (∀ (digest : Entry → String) (brd : Board) (pcb : List Entry) (kiid : String)
        (changes : List (String × Value)) (rest : List (String × List (String × Value)))
        (brd' : Board) (pcb' : List Entry) (lg : List String),
        updateOneDrawing digest brd pcb ((kiid, changes) :: rest) = .ok (brd', pcb', lg) →
        ∃ dd : Entry,
          pcb' = setDictEntryByKIID pcb kiid (dictUpdate dd "hash" (.str (digest dd)))
          ∧ (dictUpdate dd "hash" (.str (digest dd))).lookup "hash"
              = some (.str (digest dd)))
    ∧ (∀ (digest : Entry → String) (brd : Board) (pcb : List Entry) (kiid : String)
        (changes : List (String × Value)) (rest : List (String × List (String × Value)))
        (brd' : Board) (pcb' : List Entry) (lg : List String) (fpd : Entry) (fp : Footprint),
        getDictEntryByKIID pcb kiid = some fpd →
        getFootprintByKIID brd kiid = some fp →
        updateOneFootprint digest brd pcb ((kiid, changes) :: rest) = .ok (brd', pcb', lg) →
        ∃ dd : Entry,
          pcb' = setDictEntryByKIID pcb kiid (dictUpdate dd "hash" (.str (digest dd)))
          ∧ (dictUpdate dd "hash" (.str (digest dd))).lookup "hash"
              = some (.str (digest dd))) :=
  ⟨fun digest brd pcb kiid changes rest brd' pcb' lg h =>
      updateOneDrawing_hash digest brd pcb kiid changes rest brd' pcb' lg h,
   fun digest brd pcb kiid changes rest brd' pcb' lg fpd fp hd hf h =>
      updateOneFootprint_hash digest brd pcb kiid changes rest brd' pcb' lg fpd fp hd hf h⟩

/-- C5 witness: concrete drawing and footprint entries with digest
`fun _ => "D"`. -/
theorem C5_hash_recomputed_after_entry_witness :
    (∃ dd : Entry,
        [[("kiid", Value.str "k1"), ("start", ptVal (5, 6)), ("hash", Value.str "D")]]
          = setDictEntryByKIID
              [[("kiid", Value.str "k1"), ("start", ptVal (0, 0)), ("hash", Value.str "h0")]]
              "k1" (dictUpdate dd "hash" (.str "D"))
        ∧ (dictUpdate dd "hash" (.str "D")).lookup "hash" = some (Value.str "D"))
    ∧ (∃ dd : Entry,
        [[("kiid", Value.str "f1"), ("pos", ptVal (5, 6)), ("hash", Value.str "D")]]
          = setDictEntryByKIID
              [[("kiid", Value.str "f1"), ("pos", ptVal (0, 0)), ("hash", Value.str "h0")]]
              "f1" (dictUpdate dd "hash" (.str "D"))
        ∧ (dictUpdate dd "hash" (.str "D")).lookup "hash" = some (Value.str "D")) :=
  ⟨C5_hash_recomputed_after_entry.1 (fun _ => "D")
      ⟨[("k1", ⟨.line (0, 0) (10, 10), 44, 100000⟩)], [], 0⟩
      [[("kiid", .str "k1"), ("start", ptVal (0, 0)), ("hash", .str "h0")]]
      "k1" [("start", ptVal (5, 6))] [] _ _ _ rfl,
   C5_hash_recomputed_after_entry.2 (fun _ => "D")
      ⟨[], [("f1", ⟨"R1", (0, 0), 0, 0⟩)], 0⟩
      [[("kiid", .str "f1"), ("pos", ptVal (0, 0)), ("hash", .str "h0")]]
      "f1" [("pos", ptVal (5, 6))] [] _ _ _ _ _ rfl rfl rfl⟩

/-- C6: a `Changed` Rect entry with a non-empty list of corner points (in any
order) sets top to the minimum y, bottom to the maximum y, left to the
minimum x and right to the maximum x over all given points, so top ≤ bottom
and left ≤ right; in particular `[(0,0),(100,0),(100,50),(0,50)]` yields
`top=0, bottom=50, left=0, right=100`. -/
theorem C6_rect_bounds :
    (∀ (t b l r : Int) (prop : String) (p : Int × Int) (ps : List (Int × Int)),
        applyDrawingProperty (.rect t b l r) prop (ptsVal (p :: ps))
          = .ok (.rect ((ps.map Prod.snd).foldl min p.2) ((ps.map Prod.snd).foldl max p.2)
              ((ps.map Prod.fst).foldl min p.1) ((ps.map Prod.fst).foldl max p.1))
        ∧ (ps.map Prod.snd).foldl min p.2 ≤ (ps.map Prod.snd).foldl max p.2
        ∧ (ps.map Prod.fst).foldl min p.1 ≤ (ps.map Prod.fst).foldl max p.1)
    ∧ applyDrawingProperty (.rect 7 8 9 10) "points"
          (ptsVal [(0, 0), (100, 0), (100, 50), (0, 50)])
        = .ok (.rect 0 50 0 100) :=
  ⟨fun t b l r prop p ps =>
      ⟨applyDrawingProperty_rect t b l r prop p ps,
       foldl_min_le_foldl_max _ _, foldl_min_le_foldl_max _ _⟩,
   rfl⟩

/-- C7: an `Added` drawing descriptor whose shape kind is none of Line,
Circle, Arc makes `addDrawing` report the invalid-shape error and return the
empty identifier with the board unchanged, and the shadow model is left
unchanged by the (spec-modelled) caller. -/
theorem C7_unknown_shape_add_no_mutation (brd : Board) (shadow : List Entry)
    (desc : Entry) (s : String)
    (hs : desc.lookup "shape" = some (.str s))
    (h1 : strIn "Line" s = false) (h2 : strIn "Circle" s = false)
    (h3 : strIn "Arc" s = false) :
    addDrawing brd desc = .ok ("", brd, ["Invalid new drawing shape"])
    ∧ applyAddedDrawing brd shadow desc
        = .ok (brd, shadow, ["Invalid new drawing shape"]) := by
  have hadd : addDrawing brd desc = .ok ("", brd, ["Invalid new drawing shape"]) := by
    simp only [addDrawing, getKey, hs, asStr, Bind.bind, Except.bind, h1, h2, h3]
    simp
  refine ⟨hadd, ?_⟩
  simp only [applyAddedDrawing, hadd, Bind.bind, Except.bind]
  simp

/-- C7 witness: a `"Bezier"` descriptor on an empty board. -/
theorem C7_unknown_shape_add_no_mutation_witness :
    ([("shape", Value.str "Bezier")] : Entry).lookup "shape" = some (.str "Bezier")
    ∧ strIn "Line" "Bezier" = false
    ∧ strIn "Circle" "Bezier" = false
    ∧ strIn "Arc" "Bezier" = false
    ∧ (addDrawing ⟨[], [], 0⟩ [("shape", .str "Bezier")]
         = .ok ("", ⟨[], [], 0⟩, ["Invalid new drawing shape"])
       ∧ applyAddedDrawing ⟨[], [], 0⟩ [] [("shape", .str "Bezier")]
           = .ok (⟨[], [], 0⟩, [], ["Invalid new drawing shape"])) :=
  ⟨rfl, rfl, rfl, rfl,
   C7_unknown_shape_add_no_mutation ⟨[], [], 0⟩ [] [("shape", .str "Bezier")]
     "Bezier" rfl rfl rfl rfl⟩

theorem sqrt_eq_of_bounds (n k : Nat) (h1 : k * k ≤ n) (h2 : n < (k + 1) * (k + 1)) :
    Nat.sqrt n = k := by
  have hl : k ≤ Nat.sqrt n := Nat.le_sqrt.mpr h1
  have hu : Nat.sqrt n < k + 1 := Nat.sqrt_lt.mpr h2
  omega

theorem isqrtRound_2500 : isqrtRound 2500 = 50 := by
  unfold isqrtRound
  rw [sqrt_eq_of_bounds 2500 50 (by norm_num) (by norm_num)]
  norm_num

theorem isqrtRound_1300 : isqrtRound 1300 = 36 := by
  unfold isqrtRound
  rw [sqrt_eq_of_bounds 1300 36 (by norm_num) (by norm_num)]
  norm_num

/-- A tilted boundary point: center `(0,0)`, boundary `(30,40)` is distance
50 away. -/
theorem getRadius_30_40 : (BoardShape.circle (0, 0) (30, 40)).getRadius = 50 := by
  simp only [BoardShape.getRadius]
  norm_num
  rw [show ((2500 : Int).toNat) = 2500 from rfl, isqrtRound_2500]
  rfl

/-- After one update the boundary `(30,20)` is distance `√1300 ≈ 36.06` from
the center, which the host rounds to 36 — not the requested 30. -/
theorem getRadius_30_20 : (BoardShape.circle (0, 0) (30, 20)).getRadius = 36 := by
  simp only [BoardShape.getRadius]
  norm_num
  rw [show ((1300 : Int).toNat) = 1300 from rfl, isqrtRound_1300]
  rfl

/-- C8 counterexample: the claim asserts idempotence for every circle and
radius value, but for a circle whose boundary point is not vertically aligned
with the center (center `(0,0)`, boundary `(30,40)`, radius 50) the update to
radius 30 moves the boundary to `(30,20)` (distance ≈ 36, not 30), so a
second identical update moves it again, to `(30,14)`. -/
theorem C8_counterexample_tilted_boundary :
    applyDrawingProperty (.circle (0, 0) (30, 40)) "radius" (.int 30)
      = .ok (.circle (0, 0) (30, 20))
    ∧ applyDrawingProperty (.circle (0, 0) (30, 20)) "radius" (.int 30)
      = .ok (.circle (0, 0) (30, 14))
    ∧ BoardShape.circle (0, 0) (30, 14) ≠ BoardShape.circle (0, 0) (30, 20) := by
  refine ⟨?_, ?_, by decide⟩
  · rw [applyDrawingProperty_circle_radius, getRadius_30_40]
    norm_num
  · rw [applyDrawingProperty_circle_radius, getRadius_30_20]
    norm_num

/-- C8 (amended): for every circle whose boundary point lies on the vertical
through the center at signed offset `R ≥ 0` — the form `addDrawing` creates
and both circle updates preserve — and every radius value `r ≥ 0`, one
`radius = r` update moves the boundary point to `(center.x, center.y + r)`
and a second identical update leaves it there: applying the update twice
yields the same boundary point as applying it once. -/
theorem C8_amended_idempotent_vertical (c : Int × Int) (R r : Int)
    (hR : 0 ≤ R) (hr : 0 ≤ r) :
    applyDrawingProperty (.circle c (c.1, c.2 + R)) "radius" (.int r)
      = .ok (.circle c (c.1, c.2 + r))
    ∧ applyDrawingProperty (.circle c (c.1, c.2 + r)) "radius" (.int r)
      = .ok (.circle c (c.1, c.2 + r)) := by
  constructor
  · rw [applyDrawingProperty_circle_radius, getRadius_vertical c R hR]
    show Except.ok (BoardShape.circle c (c.1, c.2 + R - (R - r))) = _
    rw [show c.2 + R - (R - r) = c.2 + r from by ring]
  · rw [applyDrawingProperty_circle_radius, getRadius_vertical c r hr]
    show Except.ok (BoardShape.circle c (c.1, c.2 + r - (r - r))) = _
    rw [show c.2 + r - (r - r) = c.2 + r from by ring]

/-- C8 witness: center `(2,3)`, boundary `(2,8)` (offset 5), radius value 3. -/
theorem C8_amended_idempotent_vertical_witness :
    (0 : Int) ≤ 5 ∧ (0 : Int) ≤ 3
    ∧ (applyDrawingProperty (.circle (2, 3) (2, 8)) "radius" (.int 3)
         = .ok (.circle (2, 3) (2, 6))
       ∧ applyDrawingProperty (.circle (2, 3) (2, 6)) "radius" (.int 3)
           = .ok (.circle (2, 3) (2, 6))) :=
  ⟨by norm_num, by norm_num,
   C8_amended_idempotent_vertical (2, 3) 5 3 (by norm_num) (by norm_num)⟩

/-- C9: a `Changed` Circle `center` update sets the circle's position to the
new center, translating the boundary point by the same delta (the source uses
`SetPosition` precisely because `SetCenter` would alter the radius), and the
circle's radius is unchanged. -/
theorem C9_circle_center_no_radius_side_effect (c e p : Int × Int) :
    applyDrawingProperty (.circle c e) "center" (ptVal p)
      = .ok (.circle p (e.1 + (p.1 - c.1), e.2 + (p.2 - c.2)))
    ∧ (BoardShape.circle p (e.1 + (p.1 - c.1), e.2 + (p.2 - c.2))).getRadius
      = (BoardShape.circle c e).getRadius :=
  ⟨rfl, by
    have h1 : (e.1 + (p.1 - c.1)) - p.1 = e.1 - c.1 := by ring
    have h2 : (e.2 + (p.2 - c.2)) - p.2 = e.2 - c.2 := by ring
    simp only [BoardShape.getRadius, Prod.fst, Prod.snd]
    rw [h1, h2]⟩

/-- C10: a `Changed` entry mapping with more than one key is processed only
for its first key-value pair, in both `updateDrawings` and
`updateFootprints`: the run on the multi-key entry equals the run on the
entry truncated to its first pair, so the extra pairs cause no board or
shadow mutation and no reported error. -/
theorem C10_extra_keys_silently_ignored (digest : Entry → String) (brd : Board)
    (pcb : List Entry) (k : String) (ch : List (String × Value))
    (rest : List (String × List (String × Value)))
    (entries : List (List (String × List (String × Value)))) :
    updateDrawings digest brd pcb (((k, ch) :: rest) :: entries)
      = updateDrawings digest brd pcb ([(k, ch)] :: entries)
    ∧ updateFootprints digest brd pcb (some (((k, ch) :: rest) :: entries))
      = updateFootprints digest brd pcb (some ([(k, ch)] :: entries)) :=
  ⟨rfl, rfl⟩

end PcbUpdater
